import Mathlib

/-!
Verification of the kiosco-pos transactional sales & inventory core
(`src/micro-saas.py`), shallowly embedded in Lean 4.

Modelling conventions:
* The SQLite database is a record of lists, one per table, in insertion
  (rowid) order, plus the AUTOINCREMENT counters used for `lastrowid`.
* SQL `REAL` money amounts are modelled as exact rationals (`Rat`).
* Row timestamps are abstracted to the calendar day (`dia : Nat`), which is
  all the code ever compares (`DATE(fecha) = ?`); Python's `date.today()`
  becomes an explicit `hoy` argument of the functions that call it.
* SQLite `LIKE` (ASCII-case-insensitive, with the `%` and `_` wildcards) and
  ASCII `LOWER` are embedded directly; `LOWER(x) LIKE LOWER(pat)` collapses
  to the case-insensitive `likeMatch pat x` since both sides are folded.
* `ORDER BY` is realised by `List.insertionSort` with the order the SQL
  names; `cursor.rowcount` of a conditional `UPDATE` is the number of rows
  matched by its `WHERE` clause.
-/

/-- Row of `categorias` / dataclass `Categoria` (id may be unset, as in the
Python dataclass; stored rows carry `some id`). -/
structure Categoria where
  id : Option Nat
  nombre : String
  prefijo : String
  descripcion : String
  activo : Bool
deriving Repr, DecidableEq

/-- Row of `productos` / dataclass `Producto`. `cantidad` is an SQL INTEGER
with no non-negativity constraint, hence `Int`. -/
structure Producto where
  id : Option Nat
  sku : String
  nombre : String
  descripcion : String
  cantidad : Int
  precio : Rat
  stock_minimo : Int
  categoria : String
deriving Repr, DecidableEq

/-- Dataclass `ItemCarrito`: a proposed sale line. -/
structure ItemCarrito where
  producto_id : Nat
  sku : String
  nombre : String
  cantidad : Int
  precio_unitario : Rat
  subtotal : Rat
deriving Repr, DecidableEq

/-- Row of `ventas`. -/
structure Venta where
  id : Nat
  total : Rat
  metodo_pago : String
  dia : Nat
deriving Repr, DecidableEq

/-- Row of `detalles_venta`. -/
structure DetalleVenta where
  venta_id : Nat
  producto_id : Nat
  sku : String
  nombre_producto : String
  cantidad : Int
  precio_unitario : Rat
  subtotal : Rat
deriving Repr, DecidableEq

/-- Row of `movimientos_caja`. -/
structure MovimientoCaja where
  id : Nat
  dia : Nat
  tipo : String
  monto : Rat
  concepto : String
deriving Repr, DecidableEq

/-- The whole `kiosco_pos.db` database. -/
structure Estado where
  categorias : List Categoria
  productos : List Producto
  ventas : List Venta
  detalles : List DetalleVenta
  movimientos : List MovimientoCaja
  sigVentaId : Nat
  sigMovId : Nat
deriving Repr, DecidableEq

/-- Does `f` accept some suffix of the list (the list itself included)? -/
def cualquierSufijo (f : List Char → Bool) : List Char → Bool
  | [] => f []
  | d :: s2 => f (d :: s2) || cualquierSufijo f s2

/-- SQLite `LIKE`: `%` matches any run, `_` any single character, letters
compare ASCII-case-insensitively (`Char.toLower` is exactly that fold). -/
def likeMatch : List Char → List Char → Bool
  | [], s => s.isEmpty
  | p :: ps, s =>
    if p = '%' then cualquierSufijo (fun s2 => likeMatch ps s2) s
    else
      match s with
      | [] => false
      | d :: s2 => ((p == '_') || (p.toLower == d.toLower)) && likeMatch ps s2

/-- `LIKE` on strings. -/
def sqlLike (patron s : String) : Bool :=
  likeMatch patron.toList s.toList

/-- Case-insensitive "starts with" on character lists (spec side of the
wildcard-free `LIKE 'prefix%'`). -/
def prefixCI : List Char → List Char → Bool
  | [], _ => true
  | _ :: _, [] => false
  | p :: ps, d :: s2 => (p.toLower == d.toLower) && prefixCI ps s2

/-- Case-insensitive "contains" on character lists (spec side of the
wildcard-free `LIKE '%term%'`). -/
def infixCI (t : List Char) : List Char → Bool
  | [] => prefixCI t []
  | d :: s2 => prefixCI t (d :: s2) || infixCI t s2

/-- ASCII lower-casing of a string (SQLite `LOWER`, and `str.lower` on the
ASCII catalog data the system stores). -/
def strLower (s : String) : String :=
  String.mk (s.toList.map Char.toLower)

/-- Lexicographic (codepoint) order on character lists: SQLite's default
BINARY collation on UTF-8 text, used by `ORDER BY nombre`. -/
def cadenaLe : List Char → List Char → Bool
  | [], _ => true
  | _ :: _, [] => false
  | a :: as, b :: bs => if a = b then cadenaLe as bs else decide (a < b)

/-- Python `f"{n:03d}"` for a natural number. -/
def formato03 (n : Nat) : String :=
  if n < 10 then "00" ++ toString n
  else if n < 100 then "0" ++ toString n
  else toString n

namespace RepositorioCategoria

/-- `SELECT * FROM categorias WHERE id = ?`. -/
def obtener_por_id (st : Estado) (categoria_id : Nat) : Option Categoria :=
  st.categorias.find? (fun c => decide (c.id = some categoria_id))

end RepositorioCategoria

namespace RepositorioProducto

/-- `SELECT * FROM productos WHERE id = ?`. -/
def obtener_por_id (st : Estado) (producto_id : Nat) : Option Producto :=
  st.productos.find? (fun p => decide (p.id = some producto_id))

/-- `SELECT COUNT(*) FROM productos WHERE sku LIKE 'prefijo%'`, plus one. -/
def obtener_siguiente_numero_sku (st : Estado) (prefijo : String) : Nat :=
  (st.productos.countP (fun p => likeMatch (prefijo.toList ++ ['%']) p.sku.toList)) + 1

/-- `UPDATE productos SET cantidad = cantidad - ? WHERE id = ? AND
cantidad >= ?`; returns the updated table and `cursor.rowcount > 0`. -/
def actualizar_stock (st : Estado) (producto_id : Nat) (cantidad_vendida : Int) :
    Estado × Bool :=
  let afecta := fun (p : Producto) =>
    decide (p.id = some producto_id ∧ cantidad_vendida ≤ p.cantidad)
  let filas := st.productos.map (fun p =>
    if afecta p then { p with cantidad := p.cantidad - cantidad_vendida } else p)
  ({ st with productos := filas }, decide (0 < st.productos.countP afecta))

/-- SQL `id = ?` in a WHERE clause: a NULL parameter matches no row. -/
def filaCoincide (pid : Option Nat) (p : Producto) : Bool :=
  match pid with
  | none => false
  | some k => decide (p.id = some k)

/-- `UPDATE productos SET nombre = ?, descripcion = ?, cantidad = ?,
precio = ?, stock_minimo = ?, categoria = ? WHERE id = ?` (the statement
does not touch `sku`); returns the table and `cursor.rowcount > 0`. -/
def actualizar (st : Estado) (producto : Producto) : Estado × Bool :=
  let filas := st.productos.map (fun p =>
    if filaCoincide producto.id p then
      { p with
        nombre := producto.nombre
        descripcion := producto.descripcion
        cantidad := producto.cantidad
        precio := producto.precio
        stock_minimo := producto.stock_minimo
        categoria := producto.categoria }
    else p)
  ({ st with productos := filas }, decide (0 < st.productos.countP (filaCoincide producto.id)))

/-- The `CASE WHEN ... THEN 0 WHEN ... THEN 1 ELSE 2 END` ranking key of
`buscar_para_venta` (SQL binds `termino.lower()` for the exact-SKU test). -/
def rango (termino : String) (p : Producto) : Nat :=
  if strLower p.sku = strLower termino then 0
  else if sqlLike ("%" ++ termino ++ "%") p.nombre then 1
  else 2

/-- The `WHERE` filter of `buscar_para_venta`. -/
def coincideBusqueda (termino : String) (p : Producto) : Bool :=
  sqlLike ("%" ++ termino ++ "%") p.nombre ||
  sqlLike ("%" ++ termino ++ "%") p.sku ||
  sqlLike ("%" ++ termino ++ "%") p.categoria

/-- `ORDER BY rango, nombre` as a relation on rows. -/
def ordenBusqueda (termino : String) (p q : Producto) : Prop :=
  rango termino p < rango termino q ∨
    (rango termino p = rango termino q ∧ cadenaLe p.nombre.toList q.nombre.toList = true)

instance (termino : String) : DecidableRel (ordenBusqueda termino) := fun p q => by
  unfold ordenBusqueda
  infer_instance

/-- `buscar_para_venta`: filter, `ORDER BY rango, nombre`, `LIMIT 10`, and the
Python row-to-`Producto` mapping which fills `descripcion` with `""` and
`stock_minimo` with `5` (those columns are not selected). -/
def buscar_para_venta (st : Estado) (termino : String) : List Producto :=
  (((st.productos.filter (coincideBusqueda termino)).insertionSort
      (ordenBusqueda termino)).take 10).map
    (fun p => { p with descripcion := "", stock_minimo := 5 })

end RepositorioProducto

namespace RepositorioVenta

/-- `INSERT INTO ventas ...` followed by one `INSERT INTO detalles_venta ...`
per item; returns the new database and `cursor.lastrowid`. -/
def registrar_venta (st : Estado) (items : List ItemCarrito) (total : Rat)
    (metodo_pago : String) (hoy : Nat) : Estado × Nat :=
  let venta_id := st.sigVentaId
  let filas := items.map (fun item =>
    { venta_id := venta_id
      producto_id := item.producto_id
      sku := item.sku
      nombre_producto := item.nombre
      cantidad := item.cantidad
      precio_unitario := item.precio_unitario
      subtotal := item.subtotal : DetalleVenta })
  ({ st with
      ventas := st.ventas ++ [{ id := venta_id, total := total, metodo_pago := metodo_pago, dia := hoy }]
      detalles := st.detalles ++ filas
      sigVentaId := venta_id + 1 }, venta_id)

/-- `SELECT * FROM ventas WHERE DATE(fecha) = hoy ORDER BY fecha DESC`. -/
def obtener_ventas_dia (st : Estado) (hoy : Nat) : List Venta :=
  (st.ventas.filter (fun v => decide (v.dia = hoy))).reverse

/-- `INSERT INTO movimientos_caja (tipo, monto, concepto) VALUES ('RETIRO', ?, ?)`. -/
def registrar_retiro (st : Estado) (monto : Rat) (concepto : String) (hoy : Nat) :
    Estado × Nat :=
  let mov_id := st.sigMovId
  ({ st with
      movimientos := st.movimientos ++
        [{ id := mov_id, dia := hoy, tipo := "RETIRO", monto := monto, concepto := concepto }]
      sigMovId := mov_id + 1 }, mov_id)

/-- `SELECT * FROM movimientos_caja WHERE DATE(fecha) = hoy AND tipo = 'RETIRO'
ORDER BY fecha DESC`. -/
def obtener_retiros_dia (st : Estado) (hoy : Nat) : List MovimientoCaja :=
  (st.movimientos.filter (fun m => decide (m.dia = hoy ∧ m.tipo = "RETIRO"))).reverse

/-- `SELECT COALESCE(SUM(monto), 0) FROM movimientos_caja WHERE
DATE(fecha) = hoy AND tipo = 'RETIRO'`. -/
def total_retiros_dia (st : Estado) (hoy : Nat) : Rat :=
  ((st.movimientos.filter (fun m => decide (m.dia = hoy ∧ m.tipo = "RETIRO"))).map
    MovimientoCaja.monto).sum

end RepositorioVenta

namespace ServicioCategoria

/-- `ServicioCategoria.obtener_por_id` delegates to the repository. -/
def obtener_por_id (st : Estado) (categoria_id : Nat) : Option Categoria :=
  RepositorioCategoria.obtener_por_id st categoria_id

end ServicioCategoria

namespace ServicioProducto

/-- `ServicioProducto.buscar`: empty result below two characters, else the
repository search. -/
def buscar (st : Estado) (termino : String) : List Producto :=
  if termino.length < 2 then []
  else RepositorioProducto.buscar_para_venta st termino

/-- `ServicioProducto.generar_sku_sugerido`. -/
def generar_sku_sugerido (st : Estado) (categoria_id : Nat) : String :=
  match ServicioCategoria.obtener_por_id st categoria_id with
  | none => ""
  | some categoria =>
    categoria.prefijo ++
      formato03 (RepositorioProducto.obtener_siguiente_numero_sku st categoria.prefijo)

/-- `ServicioProducto.actualizar`: no field validation, only the repository
update and its row-count flag (the DB never raises in this model). -/
def actualizar (st : Estado) (producto : Producto) : Estado × (Bool × String) :=
  let r := RepositorioProducto.actualizar st producto
  if r.2 then (r.1, (true, "Producto actualizado"))
  else (r.1, (false, "No se pudo actualizar"))

end ServicioProducto

namespace ServicioVenta

/-- `ServicioVenta.procesar_venta`: no stock validation and no decrement —
it only records the sale. -/
def procesar_venta (st : Estado) (items : List ItemCarrito) (metodo_pago : String)
    (hoy : Nat) : Estado × (Bool × String × Option Nat) :=
  if items = [] then (st, (false, "Carrito vacío", none))
  else
    let total := (items.map ItemCarrito.subtotal).sum
    let r := RepositorioVenta.registrar_venta st items total metodo_pago hoy
    (r.1, (true, "Venta #" ++ toString r.2 ++ " completada", some r.2))

/-- `ServicioVenta.registrar_retiro`: the available balance is supplied by
the caller (the `:.2f` message formatting is abstracted to exact printing). -/
def registrar_retiro (st : Estado) (monto : Rat) (concepto : String)
    (disponible : Rat) (hoy : Nat) : Estado × (Bool × String) :=
  if monto ≤ 0 then (st, (false, "El monto debe ser positivo"))
  else if disponible < monto then
    (st, (false, "Fondos insuficientes. Disponible: $" ++ toString disponible))
  else
    let r := RepositorioVenta.registrar_retiro st monto concepto hoy
    (r.1, (true, "Retiro de $" ++ toString monto ++ " registrado"))

end ServicioVenta

namespace ServicioPOS

/-- The validation loop of `ServicioPOS.procesar_venta`: the first item whose
product is missing or whose live quantity is below the request. -/
def primer_item_sin_stock (st : Estado) : List ItemCarrito → Option ItemCarrito
  | [] => none
  | item :: resto =>
    match RepositorioProducto.obtener_por_id st item.producto_id with
    | none => some item
    | some producto =>
      if producto.cantidad < item.cantidad then some item
      else primer_item_sin_stock st resto

/-- The commit loop of `ServicioPOS.procesar_venta`: one conditional stock
decrement per item, the returned Boolean of each being discarded. -/
def descontar_stock (st : Estado) (items : List ItemCarrito) : Estado :=
  items.foldl
    (fun s item => (RepositorioProducto.actualizar_stock s item.producto_id item.cantidad).1) st

/-- `ServicioPOS.procesar_venta`: reject an empty cart, validate every item
against live stock, then insert the sale and decrement stock per item. -/
def procesar_venta (st : Estado) (items : List ItemCarrito) (metodo_pago : String)
    (hoy : Nat) : Estado × (Bool × String × Option Nat) :=
  if items = [] then (st, (false, "Carrito vacío", none))
  else
    match primer_item_sin_stock st items with
    | some item => (st, (false, "Stock insuficiente para " ++ item.nombre, none))
    | none =>
      let total := (items.map ItemCarrito.subtotal).sum
      let r := RepositorioVenta.registrar_venta st items total metodo_pago hoy
      (descontar_stock r.1 items,
        (true, "Venta #" ++ toString r.2 ++ " completada", some r.2))

/-- `ServicioPOS.efectivo_disponible`: today's sales total (with the
`if ventas else 0` guard of the source) minus today's withdrawals total. -/
def efectivo_disponible (st : Estado) (hoy : Nat) : Rat :=
  let ventas := RepositorioVenta.obtener_ventas_dia st hoy
  let total_ventas := if ventas = [] then 0 else (ventas.map Venta.total).sum
  let retiros := RepositorioVenta.total_retiros_dia st hoy
  total_ventas - retiros

/-- `ServicioPOS.registrar_retiro`: positivity check, then the
sales-minus-withdrawals balance check, then the insert. -/
def registrar_retiro (st : Estado) (monto : Rat) (concepto : String) (hoy : Nat) :
    Estado × (Bool × String) :=
  if monto ≤ 0 then (st, (false, "El monto debe ser positivo"))
  else
    let disponible := efectivo_disponible st hoy
    if disponible < monto then
      (st, (false, "Fondos insuficientes. Disponible: $" ++ toString disponible))
    else
      let r := RepositorioVenta.registrar_retiro st monto concepto hoy
      (r.1, (true, "Retiro de $" ++ toString monto ++ " registrado"))

end ServicioPOS

namespace PestanaCaja

/-- The cash-tab withdrawal dialog (`PestañaCaja.registrar_retiro` plus its
`confirmar` callback), stripped of the widgets: it computes `disponible` as
`total_retiros_dia()` (the source comments this line `# Simplificado`),
requires a non-empty memo, and calls `ServicioVenta.registrar_retiro`. -/
def registrar_retiro (st : Estado) (monto : Rat) (concepto : String) (hoy : Nat) :
    Estado × (Bool × String) :=
  let disponible := RepositorioVenta.total_retiros_dia st hoy
  if concepto = "" then (st, (false, "Ingrese un concepto"))
  else ServicioVenta.registrar_retiro st monto concepto disponible hoy

end PestanaCaja

/-! ### Bridging lemmas: wildcard-free `LIKE` patterns are prefix / infix tests -/

theorem cualquierSufijo_vacio :
    ∀ s : List Char, cualquierSufijo (fun s2 => s2.isEmpty) s = true
  | [] => rfl
  | d :: s2 => by simp [cualquierSufijo, cualquierSufijo_vacio s2]

theorem likeMatch_pct (ps : List Char) (s : List Char) :
    likeMatch ('%' :: ps) s = cualquierSufijo (fun s2 => likeMatch ps s2) s := by
  simp [likeMatch]

theorem likeMatch_prefijo (t : List Char) (ht : ∀ c ∈ t, c ≠ '%' ∧ c ≠ '_') :
    ∀ s : List Char, likeMatch (t ++ ['%']) s = prefixCI t s := by
  induction t with
  | nil =>
    intro s
    show likeMatch ['%'] s = prefixCI [] s
    simp [likeMatch, prefixCI, cualquierSufijo_vacio s]
  | cons c t2 ih =>
    intro s
    have hc := ht c (List.mem_cons_self c t2)
    have ht2 : ∀ x ∈ t2, x ≠ '%' ∧ x ≠ '_' := fun x hx => ht x (List.mem_cons_of_mem c hx)
    have hguion : (c == '_') = false := beq_eq_false_iff_ne.mpr hc.2
    cases s with
    | nil => simp [likeMatch, prefixCI, hc.1]
    | cons d s2 => simp [likeMatch, prefixCI, hc.1, hguion, ih ht2 s2]

theorem cualquierSufijo_prefixCI (t : List Char) :
    ∀ s : List Char, cualquierSufijo (fun s2 => prefixCI t s2) s = infixCI t s
  | [] => by simp [cualquierSufijo, infixCI]
  | d :: s2 => by simp [cualquierSufijo, infixCI, cualquierSufijo_prefixCI t s2]

theorem cualquierSufijo_prefijo (t : List Char) (ht : ∀ c ∈ t, c ≠ '%' ∧ c ≠ '_')
    (s : List Char) :
    cualquierSufijo (fun s2 => likeMatch (t ++ ['%']) s2) s = infixCI t s := by
  simp only [likeMatch_prefijo t ht]
  exact cualquierSufijo_prefixCI t s

theorem likeMatch_infijo (t : List Char) (ht : ∀ c ∈ t, c ≠ '%' ∧ c ≠ '_')
    (s : List Char) : likeMatch ('%' :: (t ++ ['%'])) s = infixCI t s := by
  rw [likeMatch_pct, cualquierSufijo_prefijo t ht s]

theorem toList_patron_infijo (termino : String) :
    ("%" ++ termino ++ "%").toList = '%' :: (termino.toList ++ ['%']) := by
  simp [String.toList, String.data_append]

theorem sqlLike_infijo (termino s : String) (hw : ∀ c ∈ termino.toList, c ≠ '%' ∧ c ≠ '_') :
    sqlLike ("%" ++ termino ++ "%") s = infixCI termino.toList s.toList := by
  unfold sqlLike
  rw [toList_patron_infijo, likeMatch_infijo termino.toList hw s.toList]

theorem toList_patron_prefijo (prefijo : String) :
    (prefijo ++ "%").toList = prefijo.toList ++ ['%'] := by
  simp [String.toList, String.data_append]

theorem alpha_no_comodin {c : Char} (h : c.isAlpha = true) : c ≠ '%' ∧ c ≠ '_' := by
  constructor <;> rintro rfl <;> exact absurd h (by decide)

/-! ### The BINARY collation is a total preorder -/

theorem cadenaLe_total : ∀ as bs : List Char, cadenaLe as bs = true ∨ cadenaLe bs as = true
  | [], _ => Or.inl rfl
  | _ :: _, [] => Or.inr rfl
  | a :: as, b :: bs => by
    by_cases hab : a = b
    · subst hab
      simpa [cadenaLe] using cadenaLe_total as bs
    · rcases lt_trichotomy a b with h | h | h
      · exact Or.inl (by simp [cadenaLe, hab, h])
      · exact absurd h hab
      · exact Or.inr (by simp [cadenaLe, Ne.symm hab, h])

theorem cadenaLe_trans :
    ∀ as bs cs : List Char, cadenaLe as bs = true → cadenaLe bs cs = true →
      cadenaLe as cs = true
  | [], _, _ => fun _ _ => rfl
  | a :: as, [], cs => by simp [cadenaLe]
  | a :: as, b :: bs, [] => by simp [cadenaLe]
  | a :: as, b :: bs, c :: cs => by
    intro h1 h2
    by_cases hab : a = b <;> by_cases hbc : b = c
    · subst hab; subst hbc
      simp only [cadenaLe, if_pos rfl] at h1 h2 ⊢
      exact cadenaLe_trans as bs cs h1 h2
    · subst hab
      simp only [cadenaLe, if_pos rfl] at h1
      simpa [cadenaLe, hbc] using h2
    · subst hbc
      simp only [cadenaLe, if_neg hab, decide_eq_true_eq] at h1
      simp [cadenaLe, hab, h1]
    · simp only [cadenaLe, if_neg hab, if_neg hbc, decide_eq_true_eq] at h1 h2
      have hac : a < c := lt_trans h1 h2
      simp [cadenaLe, ne_of_lt hac, hac]

instance (termino : String) : IsTotal Producto (RepositorioProducto.ordenBusqueda termino) := by
  constructor
  intro p q
  unfold RepositorioProducto.ordenBusqueda
  rcases Nat.lt_trichotomy (RepositorioProducto.rango termino p) (RepositorioProducto.rango termino q) with h | h | h
  · exact Or.inl (Or.inl h)
  · rcases cadenaLe_total p.nombre.toList q.nombre.toList with hn | hn
    · exact Or.inl (Or.inr ⟨h, hn⟩)
    · exact Or.inr (Or.inr ⟨h.symm, hn⟩)
  · exact Or.inr (Or.inl h)

instance (termino : String) : IsTrans Producto (RepositorioProducto.ordenBusqueda termino) := by
  constructor
  intro p q r hpq hqr
  unfold RepositorioProducto.ordenBusqueda at *
  rcases hpq with h1 | ⟨h1, h1n⟩ <;> rcases hqr with h2 | ⟨h2, h2n⟩
  · exact Or.inl (Nat.lt_trans h1 h2)
  · exact Or.inl (h2 ▸ h1)
  · exact Or.inl (h1 ▸ h2)
  · exact Or.inr ⟨h1.trans h2, cadenaLe_trans _ _ _ h1n h2n⟩

/-! ### C10: suggesting a SKU for a missing category -/

/-- C10: when the category id resolves to no category, `generar_sku_sugerido`
returns the empty string (no error, no failure value). -/
theorem C10_categoria_inexistente (st : Estado) (categoria_id : Nat)
    (h : RepositorioCategoria.obtener_por_id st categoria_id = none) :
    ServicioProducto.generar_sku_sugerido st categoria_id = "" := by
  unfold ServicioProducto.generar_sku_sugerido ServicioCategoria.obtener_por_id
  rw [h]

def stVacio : Estado :=
  { categorias := [], productos := [], ventas := [], detalles := [], movimientos := [],
    sigVentaId := 1, sigMovId := 1 }

theorem C10_testigo : ServicioProducto.generar_sku_sugerido stVacio 7 = "" :=
  C10_categoria_inexistente stVacio 7 (by decide)

/-! ### C6: the suggested SKU -/

/-- C6: for a category id that resolves to a category whose prefix is
alphabetic, the suggested SKU is the prefix followed by (count + 1)
zero-padded to three digits, where the count is the number of products whose
SKU starts with the prefix case-insensitively. -/
theorem C6_sku_sugerido (st : Estado) (categoria_id : Nat) (categoria : Categoria)
    (hc : RepositorioCategoria.obtener_por_id st categoria_id = some categoria)
    (halpha : ∀ c ∈ categoria.prefijo.toList, c.isAlpha = true) :
    ServicioProducto.generar_sku_sugerido st categoria_id =
      categoria.prefijo ++
        formato03
          ((st.productos.countP
              (fun p => prefixCI categoria.prefijo.toList p.sku.toList)) + 1) := by
  unfold ServicioProducto.generar_sku_sugerido ServicioCategoria.obtener_por_id
  rw [hc]
  dsimp only
  unfold RepositorioProducto.obtener_siguiente_numero_sku
  have hcnt :
      st.productos.countP (fun p => likeMatch (categoria.prefijo.toList ++ ['%']) p.sku.toList) =
        st.productos.countP (fun p => prefixCI categoria.prefijo.toList p.sku.toList) := by
    apply List.countP_congr
    intro p _
    rw [likeMatch_prefijo categoria.prefijo.toList
      (fun c hcmem => alpha_no_comodin (halpha c hcmem)) p.sku.toList]
  rw [hcnt]

def catC6 : Categoria :=
  { id := some 1, nombre := "BEBIDAS", prefijo := "BEB", descripcion := "", activo := true }

def stC6 : Estado :=
  { categorias := [catC6]
    productos :=
      [{ id := some 1, sku := "BEB001", nombre := "Coca-Cola 600ml", descripcion := "",
         cantidad := 50, precio := 25, stock_minimo := 10, categoria := "Bebidas" },
       { id := some 2, sku := "beb002", nombre := "Sprite 600ml", descripcion := "",
         cantidad := 40, precio := 25, stock_minimo := 8, categoria := "Bebidas" },
       { id := some 3, sku := "SNA001", nombre := "Lays 60g", descripcion := "",
         cantidad := 75, precio := 20, stock_minimo := 15, categoria := "Snacks" }]
    ventas := [], detalles := [], movimientos := [], sigVentaId := 1, sigMovId := 1 }

theorem C6_testigo :
    ServicioProducto.generar_sku_sugerido stC6 1 =
      "BEB" ++ formato03
        ((stC6.productos.countP (fun p => prefixCI "BEB".toList p.sku.toList)) + 1) :=
  C6_sku_sugerido stC6 1 catC6 (by decide) (by decide)

/-! ### C5: the balance identity -/

/-- C5: for every database state and every day, `efectivo_disponible` equals
the sum of that day's sale totals minus the sum of that day's withdrawal
amounts (so a day with no sales and no withdrawals has balance 0). -/
theorem C5_identidad_balance (st : Estado) (hoy : Nat) :
    ServicioPOS.efectivo_disponible st hoy =
      ((st.ventas.filter (fun v => decide (v.dia = hoy))).map Venta.total).sum -
        ((st.movimientos.filter
            (fun m => decide (m.dia = hoy ∧ m.tipo = "RETIRO"))).map
          MovimientoCaja.monto).sum := by
  unfold ServicioPOS.efectivo_disponible RepositorioVenta.obtener_ventas_dia
    RepositorioVenta.total_retiros_dia
  by_cases h : st.ventas.filter (fun v => decide (v.dia = hoy)) = []
  · simp [h]
  · simp [h, List.map_reverse, List.sum_reverse]

/-! ### C8: `ServicioVenta.procesar_venta` records without validating -/

/-- C8: for every non-empty cart and payment method,
`ServicioVenta.procesar_venta` reports success and returns the new state in
full: the sale row and its line-item rows are appended, the id counter
advances, and every other table — in particular `productos` and every
product quantity — is untouched; no stock validation and no decrement occur. -/
theorem C8_venta_sin_validacion (st : Estado) (items : List ItemCarrito)
    (metodo_pago : String) (hoy : Nat) (h : items ≠ []) :
    ServicioVenta.procesar_venta st items metodo_pago hoy =
      ({ st with
          ventas := st.ventas ++
            [{ id := st.sigVentaId, total := (items.map ItemCarrito.subtotal).sum,
               metodo_pago := metodo_pago, dia := hoy }]
          detalles := st.detalles ++ items.map (fun item =>
            { venta_id := st.sigVentaId, producto_id := item.producto_id,
              sku := item.sku, nombre_producto := item.nombre,
              cantidad := item.cantidad, precio_unitario := item.precio_unitario,
              subtotal := item.subtotal })
          sigVentaId := st.sigVentaId + 1 },
        (true, "Venta #" ++ toString st.sigVentaId ++ " completada", some st.sigVentaId)) := by
  unfold ServicioVenta.procesar_venta RepositorioVenta.registrar_venta
  rw [if_neg h]

def itemC8 : ItemCarrito :=
  { producto_id := 1, sku := "BEB001", nombre := "Coca-Cola 600ml", cantidad := 2,
    precio_unitario := 25, subtotal := 50 }

theorem C8_testigo :
    ServicioVenta.procesar_venta stC6 [itemC8] "EFECTIVO" 3 =
      ({ stC6 with
          ventas := stC6.ventas ++
            [{ id := stC6.sigVentaId, total := ([itemC8].map ItemCarrito.subtotal).sum,
               metodo_pago := "EFECTIVO", dia := 3 }]
          detalles := stC6.detalles ++ [itemC8].map (fun item =>
            { venta_id := stC6.sigVentaId, producto_id := item.producto_id,
              sku := item.sku, nombre_producto := item.nombre,
              cantidad := item.cantidad, precio_unitario := item.precio_unitario,
              subtotal := item.subtotal })
          sigVentaId := stC6.sigVentaId + 1 },
        (true, "Venta #" ++ toString stC6.sigVentaId ++ " completada",
          some stC6.sigVentaId)) :=
  C8_venta_sin_validacion stC6 [itemC8] "EFECTIVO" 3 (by simp)

/-! ### C1: stock never goes negative -/

/-- Every product quantity recorded in the database is non-negative. -/
def SinStockNegativo (st : Estado) : Prop :=
  ∀ p ∈ st.productos, 0 ≤ p.cantidad

instance (st : Estado) : Decidable (SinStockNegativo st) := by
  unfold SinStockNegativo
  infer_instance

theorem actualizar_stock_caracterizacion (st : Estado) (pid : Nat) (n : Int)
    (q : Producto) (hq : q ∈ (RepositorioProducto.actualizar_stock st pid n).1.productos) :
    q ∈ st.productos ∨
      ∃ p ∈ st.productos, p.id = some pid ∧ n ≤ p.cantidad ∧
        q = { p with cantidad := p.cantidad - n } := by
  unfold RepositorioProducto.actualizar_stock at hq
  simp only [List.mem_map] at hq
  obtain ⟨p, hp, hq⟩ := hq
  by_cases hcond : p.id = some pid ∧ n ≤ p.cantidad
  · right
    refine ⟨p, hp, hcond.1, hcond.2, ?_⟩
    rw [← hq, if_pos (by simpa using hcond)]
  · left
    rw [← hq, if_neg (by simpa using hcond)]
    exact hp

theorem actualizar_stock_preserva_nonneg (st : Estado) (pid : Nat) (n : Int)
    (h : SinStockNegativo st) :
    SinStockNegativo (RepositorioProducto.actualizar_stock st pid n).1 := by
  intro q hq
  rcases actualizar_stock_caracterizacion st pid n q hq with hq2 | ⟨p, hp, _, hle, rfl⟩
  · exact h q hq2
  · have := h p hp
    simp only
    omega

theorem descontar_stock_preserva_nonneg (items : List ItemCarrito) :
    ∀ st : Estado, SinStockNegativo st → SinStockNegativo (ServicioPOS.descontar_stock st items) := by
  induction items with
  | nil => intro st h; exact h
  | cons item resto ih =>
    intro st h
    exact ih _ (actualizar_stock_preserva_nonneg st item.producto_id item.cantidad h)

theorem procesar_venta_preserva_nonneg (st : Estado) (items : List ItemCarrito)
    (metodo_pago : String) (hoy : Nat) (h : SinStockNegativo st) :
    SinStockNegativo (ServicioPOS.procesar_venta st items metodo_pago hoy).1 := by
  unfold ServicioPOS.procesar_venta
  split
  · exact h
  · split
    · exact h
    · exact descontar_stock_preserva_nonneg items _ h

/-- C1: the stock decrement is guarded — every row of the table after
`actualizar_stock` is either an untouched old row or an old row decremented
under the `cantidad >= ?` guard — and therefore, starting from any database
with non-negative quantities, after any sequence of committed sales through
`ServicioPOS.procesar_venta` every product quantity is still non-negative
(every prefix of the sequence is itself such a sequence, so the invariant
holds at every intermediate point as well). -/
theorem C1_stock_nunca_negativo :
    (∀ (st : Estado) (pid : Nat) (n : Int) (q : Producto),
        q ∈ (RepositorioProducto.actualizar_stock st pid n).1.productos →
          q ∈ st.productos ∨
            ∃ p ∈ st.productos, p.id = some pid ∧ n ≤ p.cantidad ∧
              q = { p with cantidad := p.cantidad - n }) ∧
    (∀ (hoy : Nat) (st : Estado) (ops : List (List ItemCarrito × String)),
        SinStockNegativo st →
          SinStockNegativo (ops.foldl
            (fun s op => (ServicioPOS.procesar_venta s op.1 op.2 hoy).1) st)) := by
  constructor
  · exact actualizar_stock_caracterizacion
  · intro hoy st ops
    induction ops generalizing st with
    | nil => intro h; exact h
    | cons op resto ih =>
      intro h
      exact ih _ (procesar_venta_preserva_nonneg st op.1 op.2 hoy h)

def stC1 : Estado :=
  { stVacio with
    productos :=
      [{ id := some 1, sku := "BEB001", nombre := "Coca-Cola 600ml", descripcion := "",
         cantidad := 3, precio := 25, stock_minimo := 10, categoria := "Bebidas" }] }

def itemC1 : ItemCarrito :=
  { producto_id := 1, sku := "BEB001", nombre := "Coca-Cola 600ml", cantidad := 2,
    precio_unitario := 25, subtotal := 50 }

theorem C1_testigo :
    ((⟨some 1, "BEB001", "Coca-Cola 600ml", "", 1, 25, 10, "Bebidas"⟩ : Producto) ∈
        stC1.productos ∨
      ∃ p ∈ stC1.productos, p.id = some 1 ∧ 2 ≤ p.cantidad ∧
        (⟨some 1, "BEB001", "Coca-Cola 600ml", "", 1, 25, 10, "Bebidas"⟩ : Producto) =
          { p with cantidad := p.cantidad - 2 }) ∧
    SinStockNegativo
      (([(([itemC1] : List ItemCarrito), "EFECTIVO"), ([itemC1], "EFECTIVO")]).foldl
        (fun s op => (ServicioPOS.procesar_venta s op.1 op.2 0).1) stC1) :=
  ⟨C1_stock_nunca_negativo.1 stC1 1 2 _ (by decide),
   C1_stock_nunca_negativo.2 0 stC1 [([itemC1], "EFECTIVO"), ([itemC1], "EFECTIVO")]
     (by decide)⟩

/-! ### C3: sale atomicity on failed validation -/

/-- Does this line item fail the validation of `ServicioPOS.procesar_venta`
(missing product, or live quantity below the requested quantity)? -/
def itemSinStock (st : Estado) (item : ItemCarrito) : Bool :=
  match RepositorioProducto.obtener_por_id st item.producto_id with
  | none => true
  | some producto => decide (producto.cantidad < item.cantidad)

theorem primer_item_spec (st : Estado) :
    ∀ items : List ItemCarrito, (∃ i ∈ items, itemSinStock st i = true) →
      ∃ j, ServicioPOS.primer_item_sin_stock st items = some j ∧ j ∈ items ∧
        itemSinStock st j = true := by
  intro items
  induction items with
  | nil => rintro ⟨i, hi, _⟩; cases hi
  | cons a resto ih =>
    rintro ⟨i, hi, hfail⟩
    unfold ServicioPOS.primer_item_sin_stock
    cases hobt : RepositorioProducto.obtener_por_id st a.producto_id with
    | none =>
      exact ⟨a, rfl, List.mem_cons_self a resto, by simp [itemSinStock, hobt]⟩
    | some producto =>
      by_cases hlt : producto.cantidad < a.cantidad
      · exact ⟨a, by simp [hlt], List.mem_cons_self a resto,
          by simp [itemSinStock, hobt, hlt]⟩
      · have hresto : i ∈ resto := by
          rcases List.mem_cons.mp hi with rfl | hi2
          · exact absurd hfail (by simp [itemSinStock, hobt, hlt])
          · exact hi2
        obtain ⟨j, hj1, hj2, hj3⟩ := ih ⟨i, hresto, hfail⟩
        exact ⟨j, by simp [hlt, hj1], List.mem_cons_of_mem a hj2, hj3⟩

/-- C3: if any proposed line item references a missing product or requests
more than the live quantity, `ServicioPOS.procesar_venta` leaves the whole
database unchanged (no sale row, no line-item rows, no quantity change),
reports failure with no sale id, and the message is the insufficient-stock
message naming one such item. -/
theorem C3_venta_atomica (st : Estado) (items : List ItemCarrito)
    (metodo_pago : String) (hoy : Nat) (item0 : ItemCarrito) (h0 : item0 ∈ items)
    (hf : itemSinStock st item0 = true) :
    (ServicioPOS.procesar_venta st items metodo_pago hoy).1 = st ∧
    (ServicioPOS.procesar_venta st items metodo_pago hoy).2.1 = false ∧
    (ServicioPOS.procesar_venta st items metodo_pago hoy).2.2.2 = none ∧
    ∃ item ∈ items, itemSinStock st item = true ∧
      (ServicioPOS.procesar_venta st items metodo_pago hoy).2.2.1 =
        "Stock insuficiente para " ++ item.nombre := by
  obtain ⟨j, hj1, hj2, hj3⟩ := primer_item_spec st items ⟨item0, h0, hf⟩
  have hne : items ≠ [] := by rintro rfl; cases hj2
  unfold ServicioPOS.procesar_venta
  rw [if_neg hne, hj1]
  exact ⟨rfl, rfl, rfl, j, hj2, hj3, rfl⟩

def itemC3 : ItemCarrito :=
  { producto_id := 9, sku := "XXX999", nombre := "Fantasma", cantidad := 1,
    precio_unitario := 5, subtotal := 5 }

theorem C3_testigo :
    (ServicioPOS.procesar_venta stC1 [itemC1, itemC3] "EFECTIVO" 0).1 = stC1 ∧
    (ServicioPOS.procesar_venta stC1 [itemC1, itemC3] "EFECTIVO" 0).2.1 = false ∧
    (ServicioPOS.procesar_venta stC1 [itemC1, itemC3] "EFECTIVO" 0).2.2.2 = none ∧
    ∃ item ∈ [itemC1, itemC3], itemSinStock stC1 item = true ∧
      (ServicioPOS.procesar_venta stC1 [itemC1, itemC3] "EFECTIVO" 0).2.2.1 =
        "Stock insuficiente para " ++ item.nombre :=
  C3_venta_atomica stC1 [itemC1, itemC3] "EFECTIVO" 0 itemC3 (by decide) (by decide)

/-! ### C2: the decrement is all-or-nothing, but its flag is discarded -/

/-- C2 (amended): a per-line-item stock decrement that finds no row with
sufficient live stock leaves the whole database unchanged and returns
`false`; the Boolean returned by `actualizar_stock` is exactly the
affected-row count check `rowcount > 0`; but `ServicioPOS.procesar_venta`
discards that Boolean — once validation has passed it reports success
whatever the decrement outcomes are. -/
theorem C2_corregido :
    (∀ (st : Estado) (pid : Nat) (n : Int),
        (¬ ∃ p ∈ st.productos, p.id = some pid ∧ n ≤ p.cantidad) →
          RepositorioProducto.actualizar_stock st pid n = (st, false)) ∧
    (∀ (st : Estado) (pid : Nat) (n : Int),
        ((RepositorioProducto.actualizar_stock st pid n).2 = true ↔
          ∃ p ∈ st.productos, p.id = some pid ∧ n ≤ p.cantidad)) ∧
    (∀ (st : Estado) (items : List ItemCarrito) (metodo_pago : String) (hoy : Nat),
        items ≠ [] → ServicioPOS.primer_item_sin_stock st items = none →
          (ServicioPOS.procesar_venta st items metodo_pago hoy).2.1 = true) := by
  refine ⟨?_, ?_, ?_⟩
  · intro st pid n hno
    unfold RepositorioProducto.actualizar_stock
    have hcnt :
        st.productos.countP
          (fun p => decide (p.id = some pid ∧ n ≤ p.cantidad)) = 0 := by
      rw [List.countP_eq_zero]
      intro p hp
      simpa using fun h1 h2 => hno ⟨p, hp, h1, h2⟩
    have hmapa :
        st.productos.map (fun p =>
          if decide (p.id = some pid ∧ n ≤ p.cantidad) = true then
            { p with cantidad := p.cantidad - n }
          else p) = st.productos := by
      have h1 : ∀ p ∈ st.productos,
          (if decide (p.id = some pid ∧ n ≤ p.cantidad) = true then
            { p with cantidad := p.cantidad - n } else p) = p := by
        intro p hp
        rw [if_neg (by simpa using fun h1 h2 => hno ⟨p, hp, h1, h2⟩)]
      rw [List.map_congr_left h1, List.map_id']
    simp only [hcnt, hmapa]
    exact rfl
  · intro st pid n
    unfold RepositorioProducto.actualizar_stock
    simp only [decide_eq_true_eq, List.countP_pos_iff]
  · intro st items metodo_pago hoy hne hval
    unfold ServicioPOS.procesar_venta
    rw [if_neg hne, hval]

def stC2 : Estado :=
  { stVacio with
    productos :=
      [{ id := some 1, sku := "BEB001", nombre := "Coca-Cola 600ml", descripcion := "",
         cantidad := 1, precio := 10, stock_minimo := 5, categoria := "Bebidas" }] }

def itemC2 : ItemCarrito :=
  { producto_id := 1, sku := "BEB001", nombre := "Coca-Cola 600ml", cantidad := 1,
    precio_unitario := 10, subtotal := 10 }

/-- C2 is false as stated: with one unit on hand and the same product listed
twice in the cart, validation passes, the sale is recorded for two units, the
second per-item decrement finds insufficient stock and returns `false`
(leaving the row at quantity 0), yet `ServicioPOS.procesar_venta` — the
caller of the decrement — reports the sale completed: the affected-row count
is not checked by that caller. -/
theorem C2_contraejemplo :
    (ServicioPOS.procesar_venta stC2 [itemC2, itemC2] "EFECTIVO" 0).2.1 = true ∧
    (ServicioPOS.procesar_venta stC2 [itemC2, itemC2] "EFECTIVO" 0).2.2.1 =
      "Venta #1 completada" ∧
    (RepositorioProducto.actualizar_stock
        (RepositorioProducto.actualizar_stock
          (RepositorioVenta.registrar_venta stC2 [itemC2, itemC2]
            (([itemC2, itemC2].map ItemCarrito.subtotal).sum) "EFECTIVO" 0).1
          itemC2.producto_id itemC2.cantidad).1
        itemC2.producto_id itemC2.cantidad).2 = false ∧
    (ServicioPOS.procesar_venta stC2 [itemC2, itemC2] "EFECTIVO" 0).1.productos.map
      Producto.cantidad = [0] ∧
    ((ServicioPOS.procesar_venta stC2 [itemC2, itemC2] "EFECTIVO" 0).1.detalles.map
      DetalleVenta.cantidad).sum = 2 := by
  refine ⟨by decide, by decide, by decide, by decide, by decide⟩

theorem C2_testigo :
    RepositorioProducto.actualizar_stock stVacio 1 5 = (stVacio, false) ∧
    (ServicioPOS.procesar_venta stC1 [itemC1] "EFECTIVO" 0).2.1 = true :=
  ⟨C2_corregido.1 stVacio 1 5 (by decide),
   C2_corregido.2.2 stC1 [itemC1] "EFECTIVO" 0 (by simp) (by decide)⟩

/-! ### C9: updateProduct overwrites without validation — except the SKU -/

def stC9 : Estado :=
  { stVacio with
    productos :=
      [{ id := some 1, sku := "A001", nombre := "Viejo", descripcion := "", cantidad := 5,
         precio := 10, stock_minimo := 5, categoria := "Cat" }] }

def nuevoC9 : Producto :=
  { id := some 1, sku := "B999", nombre := "Nuevo", descripcion := "d", cantidad := -3,
    precio := 0, stock_minimo := 2, categoria := "Otra" }

/-- C9 is false as stated: the UPDATE statement never writes the `sku`
column, so an update supplying SKU "B999" for the row whose stored SKU is
"A001" reports success while the stored SKU stays "A001". -/
theorem C9_contraejemplo :
    (ServicioProducto.actualizar stC9 nuevoC9).2.1 = true ∧
    nuevoC9.sku = "B999" ∧
    (ServicioProducto.actualizar stC9 nuevoC9).1.productos.map Producto.sku = ["A001"] :=
  ⟨by decide, by decide, by decide⟩

/-- C9 (amended): for every product argument whose id matches an existing
row, `ServicioProducto.actualizar` reports success and unconditionally
overwrites the matched row's name, description, quantity, price, minimum
stock and category label with the supplied values — no range validation is
applied, so a negative quantity or a non-positive price supplied here is
persisted — while the stored SKU column is left unchanged. -/
theorem C9_corregido (st : Estado) (producto : Producto) (k : Nat)
    (hid : producto.id = some k) (hex : ∃ p ∈ st.productos, p.id = some k) :
    ServicioProducto.actualizar st producto =
      ({ st with productos := st.productos.map (fun p =>
          if p.id = some k then
            { p with nombre := producto.nombre, descripcion := producto.descripcion,
                     cantidad := producto.cantidad, precio := producto.precio,
                     stock_minimo := producto.stock_minimo,
                     categoria := producto.categoria }
          else p) },
        (true, "Producto actualizado")) := by
  unfold ServicioProducto.actualizar RepositorioProducto.actualizar
  have hfc : ∀ p : Producto,
      RepositorioProducto.filaCoincide producto.id p = decide (p.id = some k) := by
    intro p
    rw [hid]
    rfl
  have hcnt : 0 < st.productos.countP (RepositorioProducto.filaCoincide producto.id) := by
    rw [List.countP_pos_iff]
    obtain ⟨p, hp, hpk⟩ := hex
    exact ⟨p, hp, by rw [hfc p]; exact decide_eq_true hpk⟩
  have hdec : decide
      (0 < st.productos.countP (RepositorioProducto.filaCoincide producto.id)) = true :=
    decide_eq_true hcnt
  simp only [hfc, hdec, decide_eq_true_eq, if_true]

theorem C9_testigo :
    ServicioProducto.actualizar stC9 nuevoC9 =
      ({ stC9 with productos := stC9.productos.map (fun p =>
          if p.id = some 1 then
            { p with nombre := nuevoC9.nombre, descripcion := nuevoC9.descripcion,
                     cantidad := nuevoC9.cantidad, precio := nuevoC9.precio,
                     stock_minimo := nuevoC9.stock_minimo,
                     categoria := nuevoC9.categoria }
          else p) },
        (true, "Producto actualizado")) :=
  C9_corregido stC9 nuevoC9 1 rfl (by decide)

/-! ### C4: the withdrawal guard -/

def stC4 : Estado :=
  { stVacio with
    ventas := [{ id := 1, total := 100, metodo_pago := "EFECTIVO", dia := 0 }]
    movimientos := [{ id := 1, dia := 0, tipo := "RETIRO", monto := 30, concepto := "previo" }]
    sigVentaId := 2
    sigMovId := 2 }

/-- C4 fails on the cash-tab code path: on a day with $100 of sales and $30
of prior withdrawals the available balance is $70, so withdrawing a positive
$50 must be recorded per the claim — and `ServicioPOS.registrar_retiro`
indeed accepts it — but the cash-tab dialog computes its `disponible` as the
day's withdrawals total ($30, the line the source marks `# Simplificado`) and
rejects the same request as insufficient funds, leaving the state unchanged. -/
theorem C4_camino_ui_defectuoso :
    ServicioPOS.efectivo_disponible stC4 0 = 70 ∧
    (0 : Rat) < 50 ∧ (50 : Rat) ≤ 70 ∧
    (ServicioPOS.registrar_retiro stC4 50 "test" 0).2.1 = true ∧
    (PestanaCaja.registrar_retiro stC4 50 "test" 0).2.1 = false ∧
    (PestanaCaja.registrar_retiro stC4 50 "test" 0).1 = stC4 := by
  have hefec : ServicioPOS.efectivo_disponible stC4 0 = 70 := by
    norm_num [ServicioPOS.efectivo_disponible, RepositorioVenta.obtener_ventas_dia,
      RepositorioVenta.total_retiros_dia, stC4, stVacio, List.filter]
  have hret : RepositorioVenta.total_retiros_dia stC4 0 = 30 := by
    norm_num [RepositorioVenta.total_retiros_dia, stC4, stVacio, List.filter]
  refine ⟨hefec, by norm_num, by norm_num, ?_, ?_, ?_⟩
  · unfold ServicioPOS.registrar_retiro
    rw [if_neg (by norm_num), hefec, if_neg (by norm_num)]
  · unfold PestanaCaja.registrar_retiro ServicioVenta.registrar_retiro
    rw [hret, if_neg (by decide), if_neg (by norm_num), if_pos (by norm_num)]
  · unfold PestanaCaja.registrar_retiro ServicioVenta.registrar_retiro
    rw [hret, if_neg (by decide), if_neg (by norm_num), if_pos (by norm_num)]

/-! ### C7: search ranking -/

/-- C7's three tiers written from the spec's words: products whose SKU
equals the term case-insensitively first, then products whose name contains
the term case-insensitively, then all other matches. -/
def nivelReclamo (termino : String) (p : Producto) : Nat :=
  if strLower p.sku = strLower termino then 0
  else if infixCI termino.toList p.nombre.toList then 1
  else 2

/-- C7's matching written from the spec's words: case-insensitive substring
match against name, SKU or category label. -/
def coincideReclamo (termino : String) (p : Producto) : Bool :=
  infixCI termino.toList p.nombre.toList || infixCI termino.toList p.sku.toList ||
    infixCI termino.toList p.categoria.toList

/-- C7's ordering written from the spec's words: ascending tier, ties within
a tier broken by product name. -/
def ordenReclamo (termino : String) (p q : Producto) : Prop :=
  nivelReclamo termino p < nivelReclamo termino q ∨
    (nivelReclamo termino p = nivelReclamo termino q ∧
      cadenaLe p.nombre.toList q.nombre.toList = true)

instance (termino : String) : DecidableRel (ordenReclamo termino) := fun p q => by
  unfold ordenReclamo
  infer_instance

theorem rango_eq_nivelReclamo (termino : String)
    (hw : ∀ c ∈ termino.toList, c ≠ '%' ∧ c ≠ '_') (p : Producto) :
    RepositorioProducto.rango termino p = nivelReclamo termino p := by
  unfold RepositorioProducto.rango nivelReclamo
  rw [sqlLike_infijo termino p.nombre hw]

theorem coincideBusqueda_eq_reclamo (termino : String)
    (hw : ∀ c ∈ termino.toList, c ≠ '%' ∧ c ≠ '_') (p : Producto) :
    RepositorioProducto.coincideBusqueda termino p = coincideReclamo termino p := by
  unfold RepositorioProducto.coincideBusqueda coincideReclamo
  rw [sqlLike_infijo termino p.nombre hw, sqlLike_infijo termino p.sku hw,
    sqlLike_infijo termino p.categoria hw]

/-- C7 (amended): for every search term of length at least 2 containing no
SQL `LIKE` wildcard (`%` or `_`), the search returns at most 10 products,
each a matching row of the catalog (case-insensitive substring match on
name, SKU or category, reported with the unselected columns defaulted), and
the result is ordered in the claim's three tiers — exact case-insensitive
SKU match, then name containing the term, then all other matches — with ties
within a tier broken by product name. -/
theorem C7_corregido (st : Estado) (termino : String) (hlen : 2 ≤ termino.length)
    (hw : ∀ c ∈ termino.toList, c ≠ '%' ∧ c ≠ '_') :
    (ServicioProducto.buscar st termino).length ≤ 10 ∧
    List.Pairwise (ordenReclamo termino) (ServicioProducto.buscar st termino) ∧
    ∀ q ∈ ServicioProducto.buscar st termino, ∃ p ∈ st.productos,
      coincideReclamo termino p = true ∧
        q = { p with descripcion := "", stock_minimo := 5 } := by
  have hnot : ¬ termino.length < 2 := by omega
  unfold ServicioProducto.buscar RepositorioProducto.buscar_para_venta
  rw [if_neg hnot]
  refine ⟨?_, ?_, ?_⟩
  · rw [List.length_map]
    exact le_trans (List.length_take_le 10 _) (le_refl 10)
  · have hs := List.sorted_insertionSort (RepositorioProducto.ordenBusqueda termino)
      (st.productos.filter (RepositorioProducto.coincideBusqueda termino))
    have hst := List.Pairwise.sublist (List.take_sublist 10 _) hs
    rw [List.pairwise_map]
    apply hst.imp
    intro p q hpq
    show ordenReclamo termino p q
    unfold RepositorioProducto.ordenBusqueda at hpq
    unfold ordenReclamo
    rw [← rango_eq_nivelReclamo termino hw p, ← rango_eq_nivelReclamo termino hw q]
    exact hpq
  · intro q hq
    rw [List.mem_map] at hq
    obtain ⟨p, hp, rfl⟩ := hq
    have hp2 := List.mem_of_mem_take hp
    rw [List.mem_insertionSort, List.mem_filter] at hp2
    exact ⟨p, hp2.1, by rw [← coincideBusqueda_eq_reclamo termino hw p]; exact hp2.2, rfl⟩

def stBusqueda : Estado :=
  { stVacio with
    productos :=
      [{ id := some 1, sku := "BEB001", nombre := "Coca-Cola", descripcion := "",
         cantidad := 50, precio := 25, stock_minimo := 10, categoria := "Bebidas" },
       { id := some 2, sku := "BEB002", nombre := "Cola Light", descripcion := "",
         cantidad := 40, precio := 25, stock_minimo := 8, categoria := "Bebidas" }] }

theorem C7_testigo :
    (ServicioProducto.buscar stBusqueda "cola").length ≤ 10 ∧
    List.Pairwise (ordenReclamo "cola") (ServicioProducto.buscar stBusqueda "cola") ∧
    ∀ q ∈ ServicioProducto.buscar stBusqueda "cola", ∃ p ∈ stBusqueda.productos,
      coincideReclamo "cola" p = true ∧
        q = { p with descripcion := "", stock_minimo := 5 } :=
  C7_corregido stBusqueda "cola" (by decide) (by decide)

def stC7 : Estado :=
  { stVacio with
    productos :=
      [{ id := some 1, sku := "X1", nombre := "banana", descripcion := "",
         cantidad := 3, precio := 10, stock_minimo := 5, categoria := "" },
       { id := some 2, sku := "X2", nombre := "za%b", descripcion := "",
         cantidad := 3, precio := 10, stock_minimo := 5, categoria := "" }]}

/-- C7 is false as stated for every-term generality: for the two-character
term "a%" (a SQL wildcard pattern), the search returns "banana" — whose name
does not contain the literal term, the claim's last tier — before "za%b" —
whose name does contain it, the claim's middle tier — so the result is not
ordered by the claim's three tiers. -/
theorem C7_contraejemplo :
    2 ≤ ("a%" : String).length ∧
    (ServicioProducto.buscar stC7 "a%").map Producto.nombre = ["banana", "za%b"] ∧
    ¬ List.Pairwise (ordenReclamo "a%") (ServicioProducto.buscar stC7 "a%") :=
  ⟨by decide, by decide, by decide⟩
